import Mathlib

/-!
Verification development for `boxing_strike_vision.py`: a shallow embedding of
the `VideoStream`, `FPSCounter` and `BoxingStrikeVision` classes and of the
`main` entry point, together with theorems about the specified behaviour.

Modelling conventions:
* wall-clock times and the stored frame rate are rationals (the Python code
  uses floating point; all claims here concern exact arithmetic identities
  `1 / d`, sign and floor, which the rational model captures);
* a frame is a list of rows of pixels; `cv2.flip(frame, 1)` reverses each row;
* exceptions are an explicit error type: `IOError` raised by `start` is the
  spec's `DeviceUnavailable` condition, `RuntimeError` raised by `read` is the
  spec's `IllegalState` condition;
* external library calls appear as explicit inputs: what `self.cap.read()`
  yields, the `time.time()` value, and the `cv2.waitKey(1)` return of each
  loop iteration are fields of a per-iteration environment record;
* the `cv2` window registry is modelled by an explicit `windowOpen` flag held
  by the coordinator state, set by `cv2.namedWindow` and cleared by
  `cv2.destroyAllWindows`.
-/

/-- Pixel color sample: three channels, as in an OpenCV BGR frame. -/
abbrev Pixel := Nat × Nat × Nat

/-- Frame: a two-dimensional grid of pixels, stored as a list of rows. -/
abbrev Frame := List (List Pixel)

/-- Horizontal mirror of a frame: models `cv2.flip(frame, 1)`, which reverses
every row of the image (left-right flip). -/
def flipH (f : Frame) : Frame := f.map List.reverse

/-- Exceptions raised by the program. `deviceUnavailable` is the `IOError`
raised by `VideoStream.start` (spec: DeviceUnavailable); `illegalState` is the
`RuntimeError` raised by `VideoStream.read` (spec: IllegalState). -/
inductive Err where
  | deviceUnavailable
  | illegalState
deriving DecidableEq

/-- Model of a `cv2.VideoCapture` handle: constructing one always succeeds in
OpenCV; `isOpened` records whether the device was actually opened. -/
structure Device where
  isOpened : Bool
deriving DecidableEq

/-- State of a `VideoStream` instance: the configuration stored by
`__init__` plus the optional device handle `self.cap` (`None` at
construction). -/
structure VideoStream where
  camera_id : Nat
  width : Nat
  height : Nat
  fps : Nat
  cap : Option Device
deriving DecidableEq

/-- Constructor `VideoStream.__init__`: stores the configuration and sets
`self.cap = None`. -/
def VideoStream.init (camera_id width height fps : Nat) : VideoStream :=
  { camera_id := camera_id, width := width, height := height, fps := fps,
    cap := none }

/-- Method `VideoStream.start`: `self.cap = cv2.VideoCapture(self.camera_id)`
assigns the handle first; only then is `isOpened` checked, raising `IOError`
when the device could not be opened.  The returned state records the
assignment that happens even on the failing path (the property hints set on
the success path do not change the modelled state). -/
def VideoStream.start (s : VideoStream) (d : Device) : VideoStream × Option Err :=
  let s' := { s with cap := some d }
  if d.isOpened then (s', none) else (s', some Err.deviceUnavailable)

/-- Method `VideoStream.read`: raises `RuntimeError` when `self.cap is None`;
otherwise `raw` is what `self.cap.read()` produced (`none` when `ret` was
false), and the method returns the no-frame sentinel `none`, or the frame
mirrored horizontally. -/
def VideoStream.read (s : VideoStream) (raw : Option Frame) :
    Except Err (Option Frame) :=
  match s.cap with
  | none => Except.error Err.illegalState
  | some _ =>
    match raw with
    | none => Except.ok none
    | some f => Except.ok (some (flipH f))

/-- Method `VideoStream.release`: when `self.cap is not None`, releases the
handle and sets `self.cap = None`; otherwise a no-op.  It is a total function,
so no call can fail. -/
def VideoStream.release (s : VideoStream) : VideoStream :=
  if s.cap = none then s else { s with cap := none }

/-- Iterated `release`: `s.releaseN n` is the state after `n` consecutive
calls of `release()` on `s`. -/
def VideoStream.releaseN (s : VideoStream) : Nat → VideoStream
  | 0 => s
  | n + 1 => (s.release).releaseN n

/-- State of an `FPSCounter` instance. -/
structure FPSCounter where
  prev_time : ℚ
  current_time : ℚ
  fps : ℚ
deriving DecidableEq

/-- Constructor `FPSCounter.__init__`: all fields start at zero. -/
def FPSCounter.init : FPSCounter :=
  { prev_time := 0, current_time := 0, fps := 0 }

/-- Method `FPSCounter.update` where `now` is the value of `time.time()`:
computes `time_diff = current_time - prev_time`, sets `fps = 1.0 / time_diff`
only when `time_diff > 0`, always advances `prev_time`, and returns
`self.fps`.  The result pairs the updated state with the returned value. -/
def FPSCounter.update (c : FPSCounter) (now : ℚ) : FPSCounter × ℚ :=
  let time_diff := now - c.prev_time
  let fps' := if time_diff > 0 then 1 / time_diff else c.fps
  ({ prev_time := now, current_time := now, fps := fps' }, fps')

/-- Truncation toward zero of a rational, as Python's `int()` applied to a
number. -/
def ratTrunc (q : ℚ) : Int := q.num.tdiv q.den

/-- Numeric value rendered by `FPSCounter.draw` inside the overlay text
`FPS: {int(self.fps)}`. -/
def FPSCounter.displayedFps (c : FPSCounter) : Int := ratTrunc c.fps

/-- Method `FPSCounter.draw`: `cv2.putText` writes the overlay text onto the
frame in place and the same frame is returned; the pixels the external
renderer touches are outside the embedding, so the grid itself is returned
unchanged (the rendered number is `FPSCounter.displayedFps`). -/
def FPSCounter.draw (_c : FPSCounter) (frame : Frame) : Frame := frame

/-- Sequence of `update()` calls at the given `time.time()` readings, applied
from the first list element to the last. -/
def FPSCounter.applyUpdates (c : FPSCounter) : List ℚ → FPSCounter
  | [] => c
  | t :: ts => ((c.update t).1).applyUpdates ts

/-- State of the `BoxingStrikeVision` coordinator: the two owned components,
the `running` flag, and the explicit model of the `cv2` window registry. -/
structure BoxingStrikeVision where
  video_stream : VideoStream
  fps_counter : FPSCounter
  running : Bool
  windowOpen : Bool
deriving DecidableEq

/-- Constructor `BoxingStrikeVision.__init__`. -/
def BoxingStrikeVision.init (camera_id width height fps : Nat) :
    BoxingStrikeVision :=
  { video_stream := VideoStream.init camera_id width height fps,
    fps_counter := FPSCounter.init,
    running := false,
    windowOpen := false }

/-- Method `BoxingStrikeVision.setup`: starts the video stream; if that
raises, the exception propagates (the window is not created).  Otherwise
`cv2.namedWindow` opens the display window and the startup notice is
printed. -/
def BoxingStrikeVision.setup (st : BoxingStrikeVision) (d : Device) :
    BoxingStrikeVision × Option Err :=
  let r := st.video_stream.start d
  match r.2 with
  | some e => ({ st with video_stream := r.1 }, some e)
  | none => ({ st with video_stream := r.1, windowOpen := true }, none)

/-- Method `BoxingStrikeVision.process_frame` where `now` is the `time.time()`
reading of this iteration: `None` passes through; otherwise the FPS counter is
updated and its overlay drawn onto the frame. -/
def BoxingStrikeVision.process_frame (st : BoxingStrikeVision) (now : ℚ)
    (frame : Option Frame) : BoxingStrikeVision × Option Frame :=
  match frame with
  | none => (st, none)
  | some f =>
    let c' := (st.fps_counter.update now).1
    ({ st with fps_counter := c' }, some (c'.draw f))

/-- Environment input consumed by one iteration of the main loop: what
`self.cap.read()` yields (`none` when `ret` is false), the `time.time()`
reading used by the FPS update, and the raw `cv2.waitKey(1)` return value. -/
structure IterInput where
  raw : Option Frame
  now : ℚ
  key : Nat

/-- Counts of the observable events of `BoxingStrikeVision.run`: read
attempts, "Failed to grab frame" notices, FPS-counter updates, overlay draws,
and `cv2.imshow` presentations. -/
structure RunTrace where
  reads : Nat
  failNotices : Nat
  fpsUpdates : Nat
  overlayDraws : Nat
  presents : Nat
deriving DecidableEq

/-- The empty event trace. -/
def RunTrace.zero : RunTrace := ⟨0, 0, 0, 0, 0⟩

/-- Pointwise sum of event traces. -/
def RunTrace.add (a b : RunTrace) : RunTrace :=
  ⟨a.reads + b.reads, a.failNotices + b.failNotices,
   a.fpsUpdates + b.fpsUpdates, a.overlayDraws + b.overlayDraws,
   a.presents + b.presents⟩

/-- Iterations of the `while self.running` loop of `BoxingStrikeVision.run`,
consuming one environment input per iteration.  An `Err` in the result is an
exception propagating out of the loop (possible only when `read` is called
with `self.cap = None`).  Reaching the end of the input list models the
environment providing no further events. -/
def runLoop (st : BoxingStrikeVision) :
    List IterInput → BoxingStrikeVision × RunTrace × Option Err
  | [] => (st, RunTrace.zero, none)
  | inp :: rest =>
    if st.running then
      match st.video_stream.read inp.raw with
      | Except.error e => (st, { RunTrace.zero with reads := 1 }, some e)
      | Except.ok none =>
        (st, { RunTrace.zero with reads := 1, failNotices := 1 }, none)
      | Except.ok (some frame) =>
        let st' := (st.process_frame inp.now (some frame)).1
        let st'' := if inp.key % 256 = 113 then { st' with running := false }
                    else st'
        let r := runLoop st'' rest
        (r.1, RunTrace.add ⟨1, 0, 1, 1, 1⟩ r.2.1, r.2.2)
    else (st, RunTrace.zero, none)

/-- Method `BoxingStrikeVision.run`: sets `self.running = True` and enters the
loop (113 is the code point of the lowercase character q checked against
`cv2.waitKey(1) & 0xFF`). -/
def BoxingStrikeVision.run (st : BoxingStrikeVision) (inputs : List IterInput) :
    BoxingStrikeVision × RunTrace × Option Err :=
  runLoop { st with running := true } inputs

/-- Method `BoxingStrikeVision.cleanup`: releases the video stream and
destroys all display windows. -/
def BoxingStrikeVision.cleanup (st : BoxingStrikeVision) : BoxingStrikeVision :=
  { st with video_stream := st.video_stream.release, windowOpen := false }

/-- Counts of the observable events of `main`: the loop trace, printed
`Error:` notices, and `cleanup()` executions. -/
structure MainTrace where
  runEvents : RunTrace
  errorNotices : Nat
  cleanups : Nat
deriving DecidableEq

/-- Entry point `main`: builds the tracker with the compiled-in configuration,
runs `tracker.setup().run()` inside `try`, prints any caught exception, and
executes `tracker.cleanup()` in the `finally` block.  (The reserved name
`main` is unavailable in Lean, hence `mainEntry`.) -/
def mainEntry (d : Device) (inputs : List IterInput) : BoxingStrikeVision × MainTrace :=
  let tracker := BoxingStrikeVision.init 0 640 480 30
  let s := tracker.setup d
  match s.2 with
  | some _ =>
    ((s.1).cleanup, { runEvents := RunTrace.zero, errorNotices := 1, cleanups := 1 })
  | none =>
    let r := (s.1).run inputs
    ((r.1).cleanup,
     { runEvents := r.2.1,
       errorNotices := if (r.2.2).isSome then 1 else 0,
       cleanups := 1 })

/-! Helper lemmas shared by several developments. -/

/-- A `release()` call always leaves the device handle unset. -/
theorem VideoStream.release_cap (s : VideoStream) : (s.release).cap = none := by
  unfold VideoStream.release
  split
  · assumption
  · rfl

/-- The stored rate is never made negative by an `update()` sequence. -/
theorem FPSCounter.fps_nonneg_applyUpdates (ts : List ℚ) (c : FPSCounter)
    (h : 0 ≤ c.fps) : 0 ≤ (c.applyUpdates ts).fps := by
  induction ts generalizing c with
  | nil => exact h
  | cons t ts ih =>
    apply ih
    unfold FPSCounter.update
    dsimp only
    split
    · positivity
    · exact h

/-- Truncation toward zero agrees with the floor on nonnegative rationals. -/
theorem ratTrunc_eq_floor (q : ℚ) (h : 0 ≤ q) : ratTrunc q = ⌊q⌋ := by
  rw [Rat.floor_def, ratTrunc]
  exact Int.tdiv_eq_ediv (Rat.num_nonneg.mpr h) (by positivity)

/-- C1: one `FPSCounter.update()` call with elapsed time `d` sets the rate to
`1/d` when `d > 0`, keeps the prior rate when `d = 0`, always advances the
stored previous timestamp to the current one, and returns the stored rate
after the call. -/
theorem update_rate_correct (c : FPSCounter) (now : ℚ) :
    (now - c.prev_time > 0 →
      ((c.update now).1).fps = 1 / (now - c.prev_time)) ∧
    (now - c.prev_time = 0 → ((c.update now).1).fps = c.fps) ∧
    ((c.update now).1).prev_time = now ∧
    (c.update now).2 = ((c.update now).1).fps := by
  unfold FPSCounter.update
  refine ⟨fun h => ?_, fun h => ?_, rfl, rfl⟩
  · simp only [h, if_pos]
  · simp [h]

/-- Witness for C1 at a concrete counter and timestamp. -/
theorem update_rate_correct_witness :
    ((FPSCounter.init.update 2).1).fps = 1 / (2 - FPSCounter.init.prev_time) :=
  (update_rate_correct FPSCounter.init 2).1 (by norm_num [FPSCounter.init])

/-- C9: the stored rate starts at zero, each `update()` either keeps it or
assigns `1/d` with `d` strictly positive, the rate is never negative after
any sequence of updates, and the value rendered by `draw()` — the integer
truncation of the rate — always equals its floor. -/
theorem fps_nonneg_displayed_floor (ts : List ℚ) :
    FPSCounter.init.fps = 0 ∧
    (∀ (c : FPSCounter) (now : ℚ),
      ((c.update now).1).fps = c.fps ∨
      (0 < now - c.prev_time ∧
        ((c.update now).1).fps = 1 / (now - c.prev_time))) ∧
    0 ≤ (FPSCounter.init.applyUpdates ts).fps ∧
    (FPSCounter.init.applyUpdates ts).displayedFps =
      ⌊(FPSCounter.init.applyUpdates ts).fps⌋ := by
  have hnn : 0 ≤ (FPSCounter.init.applyUpdates ts).fps :=
    FPSCounter.fps_nonneg_applyUpdates ts FPSCounter.init (le_refl 0)
  refine ⟨rfl, fun c now => ?_, hnn, ratTrunc_eq_floor _ hnn⟩
  unfold FPSCounter.update
  dsimp only
  split
  · exact Or.inr ⟨by assumption, rfl⟩
  · exact Or.inl rfl

/-- C4 counterexample: the claim quantifies over zero or more `release()`
calls, but with zero calls on a started instance the stored device handle is
still set. -/
theorem release_zero_calls_counterexample :
    ((((VideoStream.init 0 640 480 30).start ⟨true⟩).1.releaseN 0).cap ≠ none) := by
  decide

/-- C4 amended: after at least one `release()` call — or any number of calls,
zero included, on an instance whose handle is unset — no call fails (the
model of `release()` is a total function) and the stored device handle is
unset; and `release()` is idempotent: a second consecutive call leaves the
state identical to the state after the first. -/
theorem release_unsets_cap (s : VideoStream) (n : Nat)
    (h : 1 ≤ n ∨ s.cap = none) :
    (s.releaseN n).cap = none ∧ s.release.release = s.release := by
  constructor
  · rcases h with h | h
    · obtain ⟨m, rfl⟩ : ∃ m, n = m + 1 := ⟨n - 1, (Nat.succ_pred_eq_of_pos h).symm⟩
      clear h
      induction m generalizing s with
      | zero => exact s.release_cap
      | succ k ih => exact ih s.release
    · have : ∀ (k : Nat) (t : VideoStream), t.cap = none → (t.releaseN k).cap = none := by
        intro k
        induction k with
        | zero => intro t ht; exact ht
        | succ k ih =>
          intro t ht
          exact ih t.release t.release_cap
      exact this n s h
  · have h2 := s.release_cap
    show (if s.release.cap = none then s.release else { s.release with cap := none }) =
      s.release
    rw [if_pos h2]

/-- Witness for C4 at a started instance and two release calls. -/
theorem release_unsets_cap_witness :
    ((((VideoStream.init 0 640 480 30).start ⟨true⟩).1.releaseN 2).cap = none ∧
      (((VideoStream.init 0 640 480 30).start ⟨true⟩).1.release.release =
        ((VideoStream.init 0 640 480 30).start ⟨true⟩).1.release)) :=
  release_unsets_cap (((VideoStream.init 0 640 480 30).start ⟨true⟩).1) 2
    (Or.inl (by decide))

/-- C10: after `release()` on a started Capture Source the instance is back in
the not-started state: its handle equals the freshly constructed one's and a
subsequent `read()` raises the IllegalState condition. -/
theorem read_after_release_illegalState (s : VideoStream) (d : Device)
    (raw : Option Frame) (hs : s.cap = some d) :
    (s.release).read raw = Except.error Err.illegalState ∧
    (s.release).cap = (VideoStream.init s.camera_id s.width s.height s.fps).cap := by
  have h := s.release_cap
  constructor
  · unfold VideoStream.read
    rw [h]
  · rw [h]; rfl

/-- Witness for C10 at a concrete started stream. -/
theorem read_after_release_illegalState_witness :
    ((((VideoStream.init 0 640 480 30).start ⟨true⟩).1.release).read none =
        Except.error Err.illegalState ∧
      (((VideoStream.init 0 640 480 30).start ⟨true⟩).1.release).cap =
        (VideoStream.init 0 640 480 30).cap) :=
  read_after_release_illegalState (((VideoStream.init 0 640 480 30).start ⟨true⟩).1)
    ⟨true⟩ none rfl

/-- C3 counterexample: a stream on which `start()` was called but failed (the
device did not open) has its handle assigned before the check raises, so a
subsequent `read()` does not raise the IllegalState condition — with the
device producing no frame it returns the sentinel instead. -/
theorem read_after_failed_start_counterexample :
    (((VideoStream.init 0 640 480 30).start ⟨false⟩).2 = some Err.deviceUnavailable) ∧
    (((VideoStream.init 0 640 480 30).start ⟨false⟩).1.read none ≠
      Except.error Err.illegalState) ∧
    (((VideoStream.init 0 640 480 30).start ⟨false⟩).1.read none = Except.ok none) := by
  refine ⟨rfl, ?_, rfl⟩
  intro h
  have h2 : (Except.ok none : Except Err (Option Frame)) =
      Except.error Err.illegalState := h
  exact Except.noConfusion h2

/-- C3 amended: on every Capture Source instance whose stored device handle is
unset — as it is when `start()` has never been called, but not after a failed
`start()`, which assigns the handle before raising — `read()` raises the
IllegalState condition, returning neither a frame nor the no-frame
sentinel. -/
theorem read_before_start_illegalState (s : VideoStream) (raw : Option Frame)
    (h : s.cap = none) :
    s.read raw = Except.error Err.illegalState := by
  unfold VideoStream.read
  rw [h]

/-- Witness for C3 (amended) at a freshly constructed stream. -/
theorem read_before_start_illegalState_witness :
    (VideoStream.init 0 640 480 30).read none = Except.error Err.illegalState :=
  read_before_start_illegalState (VideoStream.init 0 640 480 30) none rfl

/-- C5: on a started Capture Source whose device produces no frame, `read()`
returns the no-frame sentinel and raises nothing; indeed whenever the handle
is set, `read()` returns normally on every device outcome. -/
theorem read_no_frame_sentinel (s : VideoStream) (d : Device)
    (raw : Option Frame) (hcap : s.cap = some d) :
    s.read none = Except.ok none ∧ ∃ r, s.read raw = Except.ok r := by
  unfold VideoStream.read
  rw [hcap]
  refine ⟨rfl, ?_⟩
  cases raw with
  | none => exact ⟨none, rfl⟩
  | some f => exact ⟨some (flipH f), rfl⟩

/-- Witness for C5 at a concrete started stream. -/
theorem read_no_frame_sentinel_witness :
    (((VideoStream.init 0 640 480 30).start ⟨true⟩).1.read none = Except.ok none ∧
      ∃ r, ((VideoStream.init 0 640 480 30).start ⟨true⟩).1.read none =
        Except.ok r) :=
  read_no_frame_sentinel (((VideoStream.init 0 640 480 30).start ⟨true⟩).1)
    ⟨true⟩ none rfl

/-- C2: on a started stream, `read()` of a produced raw frame returns its
horizontal mirror: in every row `r`, the pixel at column `x` of the returned
frame is the raw frame's pixel at column `w - 1 - x`, where `w` is the row
width. -/
theorem read_mirrors_frame (s : VideoStream) (d : Device) (f : Frame)
    (w r x : Nat) (hcap : s.cap = some d)
    (hw : ∀ row ∈ f, row.length = w)
    (hr : r < f.length) (hx : x < w) :
    s.read (some f) = Except.ok (some (flipH f)) ∧
    ((flipH f)[r]?.bind fun row => row[x]?) =
      (f[r]?.bind fun row => row[w - 1 - x]?) := by
  constructor
  · unfold VideoStream.read
    rw [hcap]
  · have hrow : f[r]? = some (f[r]) := List.getElem?_eq_getElem hr
    have hlen : (f[r]).length = w := hw _ (List.getElem_mem hr)
    have hxr : x < (f[r]).length := by rw [hlen]; exact hx
    simp only [flipH, List.getElem?_map, hrow, Option.map_some', Option.some_bind]
    rw [List.getElem?_reverse hxr, hlen]

/-- Witness for C2 at a concrete 1×2 frame. -/
theorem read_mirrors_frame_witness :
    (((VideoStream.init 0 640 480 30).start ⟨true⟩).1.read
        (some [[(1, 2, 3), (4, 5, 6)]]) =
      Except.ok (some (flipH [[(1, 2, 3), (4, 5, 6)]])) ∧
    ((flipH [[(1, 2, 3), (4, 5, 6)]])[0]?.bind fun row => row[0]?) =
      (([[(1, 2, 3), (4, 5, 6)]] : Frame)[0]?.bind fun row => row[2 - 1 - 0]?)) :=
  read_mirrors_frame (((VideoStream.init 0 640 480 30).start ⟨true⟩).1) ⟨true⟩
    [[(1, 2, 3), (4, 5, 6)]] 2 0 0 rfl (by decide) (by decide) (by decide)

/-- A loop whose running flag is false performs no iteration. -/
theorem runLoop_not_running (st : BoxingStrikeVision) (l : List IterInput)
    (h : st.running = false) : runLoop st l = (st, RunTrace.zero, none) := by
  cases l with
  | nil => rfl
  | cons a t => simp [runLoop, h]

/-- One successful loop iteration that does not carry the quit key: the FPS
counter is updated and the loop continues on the remaining inputs, with one
read, one update, one draw and one presentation added to the trace. -/
theorem runLoop_cons_good (inp : IterInput) (rest : List IterInput)
    (vs : VideoStream) (fc : FPSCounter) (win : Bool)
    (d : Device) (f : Frame)
    (hd : vs.cap = some d) (hf : inp.raw = some f)
    (hkey : inp.key % 256 ≠ 113) :
    runLoop ⟨vs, fc, true, win⟩ (inp :: rest) =
      ((runLoop ⟨vs, (fc.update inp.now).1, true, win⟩ rest).1,
       RunTrace.add ⟨1, 0, 1, 1, 1⟩
         (runLoop ⟨vs, (fc.update inp.now).1, true, win⟩ rest).2.1,
       (runLoop ⟨vs, (fc.update inp.now).1, true, win⟩ rest).2.2) := by
  simp [runLoop, VideoStream.read, hd, hf, hkey,
    BoxingStrikeVision.process_frame, RunTrace.add, RunTrace.zero]

/-- A loop iteration whose read yields the no-frame sentinel: the failure
notice is printed and the loop breaks, leaving the remaining inputs
unconsumed, with nothing displayed on this iteration. -/
theorem runLoop_cons_sentinel (inp : IterInput) (rest : List IterInput)
    (vs : VideoStream) (fc : FPSCounter) (win : Bool) (d : Device)
    (hd : vs.cap = some d) (hf : inp.raw = none) :
    runLoop ⟨vs, fc, true, win⟩ (inp :: rest) =
      (⟨vs, fc, true, win⟩, ⟨1, 1, 0, 0, 0⟩, none) := by
  simp [runLoop, VideoStream.read, hd, hf, RunTrace.zero]

/-- A successful loop iteration that carries the quit key: the full body still
executes (update, draw, presentation), then the running flag is cleared and
the loop exits, leaving the remaining inputs unconsumed. -/
theorem runLoop_cons_quit (inp : IterInput) (rest : List IterInput)
    (vs : VideoStream) (fc : FPSCounter) (win : Bool)
    (d : Device) (f : Frame)
    (hd : vs.cap = some d) (hf : inp.raw = some f)
    (hkey : inp.key % 256 = 113) :
    runLoop ⟨vs, fc, true, win⟩ (inp :: rest) =
      (⟨vs, (fc.update inp.now).1, false, win⟩, ⟨1, 0, 1, 1, 1⟩, none) := by
  simp [runLoop, VideoStream.read, hd, hf, hkey,
    BoxingStrikeVision.process_frame, runLoop_not_running,
    RunTrace.add, RunTrace.zero]

/-- Over inputs that all produce a frame and none of which carries the quit
key, the loop never stops by itself: it consumes every input, raises nothing,
and leaves the running flag true. -/
theorem runLoop_all_good (inputs : List IterInput) (st : BoxingStrikeVision)
    (hrun : st.running = true) (hcap : (st.video_stream.cap).isSome)
    (hgood : ∀ inp ∈ inputs, inp.raw.isSome ∧ inp.key % 256 ≠ 113) :
    (runLoop st inputs).1.running = true ∧
    (runLoop st inputs).2.1.reads = inputs.length ∧
    (runLoop st inputs).2.2 = none := by
  induction inputs generalizing st with
  | nil => exact ⟨hrun, rfl, rfl⟩
  | cons inp rest ih =>
    obtain ⟨hraw, hkey⟩ := hgood inp (List.mem_cons_self inp rest)
    obtain ⟨f, hf⟩ := Option.isSome_iff_exists.mp hraw
    obtain ⟨vs, fc, run, win⟩ := st
    have hrun2 : run = true := hrun
    subst hrun2
    obtain ⟨d, hd⟩ := Option.isSome_iff_exists.mp hcap
    have hd2 : vs.cap = some d := hd
    have hih := ih ⟨vs, (fc.update inp.now).1, true, win⟩
      rfl hcap (fun i hi => hgood i (List.mem_cons_of_mem _ hi))
    rw [runLoop_cons_good inp rest vs fc win d f hd2 hf hkey]
    refine ⟨hih.1, ?_, hih.2.2⟩
    simp [RunTrace.add, hih.2.1]
    omega

/-- C6: when the device cannot be opened, `setup()` raises the
DeviceUnavailable condition propagated from the Capture Source, and the entry
point still executes `cleanup()` exactly once, so the final state holds no
device handle and no open display window. -/
theorem setup_failure_cleanup (d : Device) (inputs : List IterInput)
    (h : d.isOpened = false) :
    ((BoxingStrikeVision.init 0 640 480 30).setup d).2 =
      some Err.deviceUnavailable ∧
    (mainEntry d inputs).2.cleanups = 1 ∧
    (mainEntry d inputs).2.errorNotices = 1 ∧
    (mainEntry d inputs).1.video_stream.cap = none ∧
    (mainEntry d inputs).1.windowOpen = false := by
  refine ⟨?_, ?_, ?_, ?_, ?_⟩ <;>
    simp [mainEntry, BoxingStrikeVision.setup, VideoStream.start, h,
      BoxingStrikeVision.cleanup, VideoStream.release, BoxingStrikeVision.init]

/-- Witness for C6 at a concrete closed device. -/
theorem setup_failure_cleanup_witness :
    (((BoxingStrikeVision.init 0 640 480 30).setup ⟨false⟩).2 =
      some Err.deviceUnavailable ∧
    (mainEntry ⟨false⟩ []).2.cleanups = 1 ∧
    (mainEntry ⟨false⟩ []).2.errorNotices = 1 ∧
    (mainEntry ⟨false⟩ []).1.video_stream.cap = none ∧
    (mainEntry ⟨false⟩ []).1.windowOpen = false) :=
  setup_failure_cleanup ⟨false⟩ [] rfl

/-- C7: when the first four reads produce frames (without the quit key) and
the fifth read returns the no-frame sentinel, the loop exits after iteration
5 leaving later inputs unconsumed, nothing is displayed on that iteration,
the failure notice is printed exactly once, and cleanup runs exactly once. -/
theorem loop_sentinel_iteration_five (d : Device)
    (i1 i2 i3 i4 i5 : IterInput) (rest : List IterInput)
    (f1 f2 f3 f4 : Frame)
    (hd : d.isOpened = true)
    (hf1 : i1.raw = some f1) (hf2 : i2.raw = some f2)
    (hf3 : i3.raw = some f3) (hf4 : i4.raw = some f4)
    (hk1 : i1.key % 256 ≠ 113) (hk2 : i2.key % 256 ≠ 113)
    (hk3 : i3.key % 256 ≠ 113) (hk4 : i4.key % 256 ≠ 113)
    (h5 : i5.raw = none) :
    (mainEntry d (i1 :: i2 :: i3 :: i4 :: i5 :: rest)).2.runEvents =
      ⟨5, 1, 4, 4, 4⟩ ∧
    (mainEntry d (i1 :: i2 :: i3 :: i4 :: i5 :: rest)).2.cleanups = 1 := by
  refine ⟨?_, ?_⟩ <;>
    simp [mainEntry, BoxingStrikeVision.setup, VideoStream.start, hd,
      BoxingStrikeVision.run, runLoop_cons_good, runLoop_cons_sentinel,
      hf1, hf2, hf3, hf4, h5, hk1, hk2, hk3, hk4,
      RunTrace.add, BoxingStrikeVision.cleanup, VideoStream.release,
      BoxingStrikeVision.init, VideoStream.init, FPSCounter.init]

/-- Witness for C7: four produced frames, then the sentinel on iteration 5. -/
theorem loop_sentinel_iteration_five_witness :
    ((mainEntry ⟨true⟩ [⟨some [], 1, 0⟩, ⟨some [], 2, 0⟩, ⟨some [], 3, 0⟩,
        ⟨some [], 4, 0⟩, ⟨none, 5, 0⟩]).2.runEvents = ⟨5, 1, 4, 4, 4⟩ ∧
      (mainEntry ⟨true⟩ [⟨some [], 1, 0⟩, ⟨some [], 2, 0⟩, ⟨some [], 3, 0⟩,
        ⟨some [], 4, 0⟩, ⟨none, 5, 0⟩]).2.cleanups = 1) :=
  loop_sentinel_iteration_five ⟨true⟩ ⟨some [], 1, 0⟩ ⟨some [], 2, 0⟩
    ⟨some [], 3, 0⟩ ⟨some [], 4, 0⟩ ⟨none, 5, 0⟩ [] [] [] [] [] rfl
    rfl rfl rfl rfl (by decide) (by decide) (by decide) (by decide) rfl

/-- C8: when the first ten reads produce frames, the quit key is first seen on
iteration 10, and no earlier input carries it, the loop performs exactly ten
full iterations — ten reads, FPS updates, overlay draws and presentations —
then exits with the running flag false, cleanup runs exactly once, and (last
conjunct) no input that produces a frame without the quit key can stop the
loop: over any such inputs the loop consumes everything, raises nothing and
keeps running. -/
theorem loop_quit_iteration_ten (d : Device)
    (i1 i2 i3 i4 i5 i6 i7 i8 i9 i10 : IterInput) (rest : List IterInput)
    (f1 f2 f3 f4 f5 f6 f7 f8 f9 f10 : Frame)
    (hd : d.isOpened = true)
    (hf1 : i1.raw = some f1) (hf2 : i2.raw = some f2)
    (hf3 : i3.raw = some f3) (hf4 : i4.raw = some f4)
    (hf5 : i5.raw = some f5) (hf6 : i6.raw = some f6)
    (hf7 : i7.raw = some f7) (hf8 : i8.raw = some f8)
    (hf9 : i9.raw = some f9) (hf10 : i10.raw = some f10)
    (hk1 : i1.key % 256 ≠ 113) (hk2 : i2.key % 256 ≠ 113)
    (hk3 : i3.key % 256 ≠ 113) (hk4 : i4.key % 256 ≠ 113)
    (hk5 : i5.key % 256 ≠ 113) (hk6 : i6.key % 256 ≠ 113)
    (hk7 : i7.key % 256 ≠ 113) (hk8 : i8.key % 256 ≠ 113)
    (hk9 : i9.key % 256 ≠ 113)
    (hk10 : i10.key % 256 = 113) :
    (mainEntry d
        (i1 :: i2 :: i3 :: i4 :: i5 :: i6 :: i7 :: i8 :: i9 :: i10 :: rest)).2.runEvents =
      ⟨10, 0, 10, 10, 10⟩ ∧
    (mainEntry d
        (i1 :: i2 :: i3 :: i4 :: i5 :: i6 :: i7 :: i8 :: i9 :: i10 :: rest)).2.cleanups = 1 ∧
    (mainEntry d
        (i1 :: i2 :: i3 :: i4 :: i5 :: i6 :: i7 :: i8 :: i9 :: i10 :: rest)).1.running = false ∧
    (∀ (st : BoxingStrikeVision) (inputs : List IterInput),
      st.running = true → (st.video_stream.cap).isSome →
      (∀ inp ∈ inputs, inp.raw.isSome ∧ inp.key % 256 ≠ 113) →
      (runLoop st inputs).1.running = true ∧
      (runLoop st inputs).2.1.reads = inputs.length ∧
      (runLoop st inputs).2.2 = none) := by
  refine ⟨?_, ?_, ?_,
    fun st inputs h1 h2 h3 => runLoop_all_good inputs st h1 h2 h3⟩ <;>
    simp [mainEntry, BoxingStrikeVision.setup, VideoStream.start, hd,
      BoxingStrikeVision.run, runLoop_cons_good, runLoop_cons_quit,
      hf1, hf2, hf3, hf4, hf5, hf6, hf7, hf8, hf9, hf10,
      hk1, hk2, hk3, hk4, hk5, hk6, hk7, hk8, hk9, hk10,
      RunTrace.add, BoxingStrikeVision.cleanup, VideoStream.release,
      BoxingStrikeVision.init, VideoStream.init, FPSCounter.init]

/-- Witness for C8: nine plain frames followed by a frame with the quit key. -/
theorem loop_quit_iteration_ten_witness :
    ((mainEntry ⟨true⟩ [⟨some [], 1, 0⟩, ⟨some [], 2, 0⟩, ⟨some [], 3, 0⟩,
        ⟨some [], 4, 0⟩, ⟨some [], 5, 0⟩, ⟨some [], 6, 0⟩, ⟨some [], 7, 0⟩,
        ⟨some [], 8, 0⟩, ⟨some [], 9, 0⟩, ⟨some [], 10, 113⟩]).2.runEvents =
      ⟨10, 0, 10, 10, 10⟩ ∧
    (mainEntry ⟨true⟩ [⟨some [], 1, 0⟩, ⟨some [], 2, 0⟩, ⟨some [], 3, 0⟩,
        ⟨some [], 4, 0⟩, ⟨some [], 5, 0⟩, ⟨some [], 6, 0⟩, ⟨some [], 7, 0⟩,
        ⟨some [], 8, 0⟩, ⟨some [], 9, 0⟩, ⟨some [], 10, 113⟩]).2.cleanups = 1 ∧
    (mainEntry ⟨true⟩ [⟨some [], 1, 0⟩, ⟨some [], 2, 0⟩, ⟨some [], 3, 0⟩,
        ⟨some [], 4, 0⟩, ⟨some [], 5, 0⟩, ⟨some [], 6, 0⟩, ⟨some [], 7, 0⟩,
        ⟨some [], 8, 0⟩, ⟨some [], 9, 0⟩, ⟨some [], 10, 113⟩]).1.running = false ∧
    (∀ (st : BoxingStrikeVision) (inputs : List IterInput),
      st.running = true → (st.video_stream.cap).isSome →
      (∀ inp ∈ inputs, inp.raw.isSome ∧ inp.key % 256 ≠ 113) →
      (runLoop st inputs).1.running = true ∧
      (runLoop st inputs).2.1.reads = inputs.length ∧
      (runLoop st inputs).2.2 = none)) :=
  loop_quit_iteration_ten ⟨true⟩ ⟨some [], 1, 0⟩ ⟨some [], 2, 0⟩
    ⟨some [], 3, 0⟩ ⟨some [], 4, 0⟩ ⟨some [], 5, 0⟩ ⟨some [], 6, 0⟩
    ⟨some [], 7, 0⟩ ⟨some [], 8, 0⟩ ⟨some [], 9, 0⟩ ⟨some [], 10, 113⟩ []
    [] [] [] [] [] [] [] [] [] [] rfl
    rfl rfl rfl rfl rfl rfl rfl rfl rfl rfl
    (by decide) (by decide) (by decide) (by decide) (by decide) (by decide)
    (by decide) (by decide) (by decide) (by decide)
